import Mathlib

/-!
# Verification of the OpenTrust Protocol conformance validator

Shallow embedding of the two validator harnesses of the repository:
`src/tools/test-runner/validate_vectors.py` (the `TestVectorValidator` class,
definitions without suffix below) and `src/tools/validator/check_conformance.py`
(the `ConformanceValidator` class, definitions with suffix `_CC` below).

Python reals are modelled as rationals `ℚ`; a candidate-SDK call that may raise
is modelled as an `Except String` value carrying the raised error's message;
field reads on candidate-produced judgment objects are modelled as `Except`
values as well, since a duck-typed object's attribute access may itself raise.
The candidate SDK is modelled as a record of deterministic functions — the
capability surface the harness actually invokes (`NeutrosophicJudgment`
construction and the three fusion operators).
-/

set_option autoImplicit false

namespace OTP

instance exceptDecEq {ε α : Type} [DecidableEq ε] [DecidableEq α] :
    DecidableEq (Except ε α) := fun
  | .ok a, .ok b =>
    if h : a = b then .isTrue (by rw [h])
    else .isFalse (by intro hh; cases hh; exact h rfl)
  | .ok _, .error _ => .isFalse (by intro h; cases h)
  | .error _, .ok _ => .isFalse (by intro h; cases h)
  | .error e, .error f =>
    if h : e = f then .isTrue (by rw [h])
    else .isFalse (by intro hh; cases hh; exact h rfl)

/-- A probe verdict as printed / recorded by both harnesses. -/
inductive Verdict where
  | PASS
  | WARN
  | FAIL
deriving DecidableEq, Repr

/-- One entry of a fixture `provenance_chain`: `{source_id, timestamp}`. -/
structure ProvRecord where
  source_id : String
  timestamp : String
deriving DecidableEq, Repr

/-- Outcome of the attempt `judgment.provenance_chain.append({...})` in
`check_conformance.validate_provenance_chain`: the statement returns normally,
raises `AttributeError` or `TypeError` (the two kinds the inner handler
catches), or raises some other exception. -/
inductive AppendOutcome where
  | returned
  | attrOrTypeError (msg : String)
  | otherError (msg : String)
deriving DecidableEq, Repr

/-- A candidate-produced judgment object, duck-typed: every attribute access
the harness performs is modelled as an `Except` (reading a field of a
malformed object may raise). `T`, `I`, `F` are the three components;
`provenance_chain_len` models `len(judgment.provenance_chain)`;
`provenance_chain_append` models the mutation attempt on the chain. -/
structure JudgmentObj where
  T : Except String ℚ
  I : Except String ℚ
  F : Except String ℚ
  provenance_chain_len : Except String Nat
  provenance_chain_append : AppendOutcome
deriving DecidableEq

/-- The capability surface of a candidate SDK, as invoked by the harnesses:
`NeutrosophicJudgment(T=…, I=…, F=…, provenance_chain=…)` and the three fusion
operators. Each call either returns a judgment object or raises with a
message. -/
structure SDK where
  construct_judgment : ℚ → ℚ → ℚ → List ProvRecord → Except String JudgmentObj
  conflict_aware_weighted_average : List JudgmentObj → List ℚ → Except String JudgmentObj
  optimistic_fusion : List JudgmentObj → Except String JudgmentObj
  pessimistic_fusion : List JudgmentObj → Except String JudgmentObj

/-- One judgment-creation test vector from `judgments.json`
(`name`, `input.T/I/F/provenance_chain`, `expected_valid`, optional
`expected_error`). -/
structure JudgmentVector where
  name : String
  T : ℚ
  I : ℚ
  F : ℚ
  provenance_chain : List ProvRecord
  expected_valid : Bool
  expected_error : Option String
deriving DecidableEq

/-- One recorded probe result: `{test, status, message}` as appended to a
category's `details` list by `validate_vectors.py` (and as printed by
`check_conformance.py`). -/
structure Detail where
  test : String
  status : Verdict
  message : String
deriving DecidableEq, Repr

/-- Whether `needle` is a prefix of `hay` (character lists). -/
def listPrefixEq : List Char → List Char → Bool
  | [], _ => true
  | _ :: _, [] => false
  | a :: as, b :: bs => a == b && listPrefixEq as bs

/-- Whether `needle` occurs as a contiguous sublist of `hay`. -/
def listSubOf (needle : List Char) : List Char → Bool
  | [] => listPrefixEq needle []
  | c :: t => listPrefixEq needle (c :: t) || listSubOf needle t

/-- Python's `needle in hay` on strings: literal substring containment. -/
def strContains (hay needle : String) : Bool :=
  listSubOf needle.toList hay.toList

/-- The error-matching policy used on the judgment-creation raise path of both
harnesses: `if expected_error and expected_error in error_msg` — true iff the
expected substring is non-empty (Python truthiness) and occurs literally in the
actual message. -/
def matches_expected_error (actual_message expected_substring : String) : Bool :=
  expected_substring != "" && strContains actual_message expected_substring

/-- The bounds check
`0 <= j.T <= 1 and 0 <= j.I <= 1 and 0 <= j.F <= 1 and j.T + j.I + j.F <= 1.0`
with Python's left-to-right, short-circuit attribute reads: a read that raises
propagates as `.error`. The final sum clause re-reads all three attributes,
as the Python expression does. -/
def judgment_bounds_check (j : JudgmentObj) : Except String Bool :=
  match j.T with
  | .error e => .error e
  | .ok t =>
    if !(decide (0 ≤ t) && decide (t ≤ 1)) then .ok false
    else
      match j.I with
      | .error e => .error e
      | .ok i =>
        if !(decide (0 ≤ i) && decide (i ≤ 1)) then .ok false
        else
          match j.F with
          | .error e => .error e
          | .ok f =>
            if !(decide (0 ≤ f) && decide (f ≤ 1)) then .ok false
            else
              match j.T, j.I, j.F with
              | .error e, _, _ => .error e
              | .ok _, .error e, _ => .error e
              | .ok _, .ok _, .error e => .error e
              | .ok t2, .ok i2, .ok f2 => .ok (decide (t2 + i2 + f2 ≤ 1))

/-- Model of `TestVectorValidator._is_valid_judgment`: the bounds check wrapped in
`try: … except: return False` — any exception while reading the fields is
treated as `false`, never propagated. -/
def _is_valid_judgment (j : JudgmentObj) : Bool :=
  match judgment_bounds_check j with
  | .ok b => b
  | .error _ => false

/-! ## `validate_vectors.py` — the `TestVectorValidator` harness -/

/-- One iteration of the loop in
`TestVectorValidator.validate_judgment_creation` (lines 52–110): the verdict
recorded for one vector, paired with the amount added to the category's
`passed` counter (`1` on the PASS branch, `1` on the WARN branch — WARN
"still counts as passed" — `0` on either FAIL branch). -/
def judgment_creation_probe (sdk : SDK) (tc : JudgmentVector) : Detail × Nat :=
  match sdk.construct_judgment tc.T tc.I tc.F tc.provenance_chain with
  | .ok _ =>
    if tc.expected_valid then
      (⟨tc.name, .PASS, "Valid judgment created successfully"⟩, 1)
    else
      (⟨tc.name, .FAIL, "Should have failed but did not"⟩, 0)
  | .error e =>
    if !tc.expected_valid then
      -- expected_error = test_case.get('expected_error', '')
      let expected := tc.expected_error.getD ""
      if matches_expected_error e expected then
        (⟨tc.name, .PASS, "Failed as expected: " ++ e⟩, 1)
      else
        (⟨tc.name, .WARN, "Failed as expected but wrong error: " ++ e⟩, 1)
    else
      (⟨tc.name, .FAIL, "Unexpected error: " ++ e⟩, 0)

/-- A category's accumulated `{passed, total, details}` record. -/
structure CategoryResult where
  passed : Nat
  total : Nat
  details : List Detail
deriving DecidableEq, Repr

/-- Model of `TestVectorValidator.validate_judgment_creation`: processes the vectors in
file order, one probe each, accumulating `passed`, `total` and `details`. -/
def validate_judgment_creation (sdk : SDK) (vs : List JudgmentVector) :
    CategoryResult :=
  { passed := (vs.map (fun tc => (judgment_creation_probe sdk tc).2)).sum
    total := vs.length
    details := vs.map (fun tc => (judgment_creation_probe sdk tc).1) }

/-- Provenance chain passed for the first canonical fusion judgment. -/
def fusionChain1 : List ProvRecord := [⟨"test1", "2025-09-20T20:30:00Z"⟩]

/-- Provenance chain passed for the second canonical fusion judgment. -/
def fusionChain2 : List ProvRecord := [⟨"test2", "2025-09-20T20:30:00Z"⟩]

/-- Provenance chain used by the single-judgment edge probe and the
provenance-chain probes (`source_id = "test"`). -/
def testChain : List ProvRecord := [⟨"test", "2025-09-20T20:30:00Z"⟩]

/-- Body of each operator probe of
`TestVectorValidator.validate_fusion_operators`: the operator call and the
validity check sit inside `try`, so a raise is recorded as FAIL for that
probe. Returns the passed-increment and the recorded detail. -/
def fusion_operator_probe (nm : String) (r : Except String JudgmentObj) :
    Nat × Detail :=
  match r with
  | .error e => (0, ⟨nm, .FAIL, "Error: " ++ e⟩)
  | .ok res =>
    if _is_valid_judgment res then (1, ⟨nm, .PASS, "Valid fusion result"⟩)
    else (0, ⟨nm, .FAIL, "Invalid fusion result"⟩)

/-- Model of `TestVectorValidator.validate_fusion_operators` (lines 112–213): the two
canonical judgments are constructed OUTSIDE any `try`, so an exception there
propagates out of the function (modelled as `.error`); each of the three
operator probes then runs inside its own `try`. -/
def validate_fusion_operators (sdk : SDK) : Except String CategoryResult :=
  match sdk.construct_judgment 0.8 0.2 0.0 fusionChain1 with
  | .error e => .error e
  | .ok j1 =>
    match sdk.construct_judgment 0.6 0.3 0.1 fusionChain2 with
    | .error e => .error e
    | .ok j2 =>
      let judgments := [j1, j2]
      let p1 := fusion_operator_probe "conflict_aware_weighted_average"
        (sdk.conflict_aware_weighted_average judgments [0.6, 0.4])
      let p2 := fusion_operator_probe "optimistic_fusion"
        (sdk.optimistic_fusion judgments)
      let p3 := fusion_operator_probe "pessimistic_fusion"
        (sdk.pessimistic_fusion judgments)
      .ok ⟨p1.1 + p2.1 + p3.1, 3, [p1.2, p2.2, p3.2]⟩

/-- First probe of `TestVectorValidator.validate_edge_cases` (lines 219–251):
construct one judgment (T=0.8, I=0.2, F=0.0), fuse `[judgment]` with weights
`[1.0]`, then require `_is_valid_judgment(result) and result.T == 0.8`.
Everything is inside `try`, so any raise is a FAIL. -/
def single_judgment_probe (sdk : SDK) : Nat × Detail :=
  match sdk.construct_judgment 0.8 0.2 0.0 testChain with
  | .error e => (0, ⟨"single_judgment_fusion", .FAIL, "Error: " ++ e⟩)
  | .ok judgment =>
    match sdk.conflict_aware_weighted_average [judgment] [1.0] with
    | .error e => (0, ⟨"single_judgment_fusion", .FAIL, "Error: " ++ e⟩)
    | .ok result =>
      if _is_valid_judgment result then
        match result.T with
        | .error e => (0, ⟨"single_judgment_fusion", .FAIL, "Error: " ++ e⟩)
        | .ok t =>
          if t = 0.8 then
            (1, ⟨"single_judgment_fusion", .PASS,
              "Single judgment fusion works correctly"⟩)
          else
            (0, ⟨"single_judgment_fusion", .FAIL,
              "Single judgment fusion failed"⟩)
      else
        (0, ⟨"single_judgment_fusion", .FAIL, "Single judgment fusion failed"⟩)

/-- Second probe of `TestVectorValidator.validate_edge_cases` (lines 254–291):
construct two judgments (T=0.9, I=0.1, F=0.9) and (T=0.8, I=0.2, F=0.8), fuse
with weights `[0.0, 0.0]`, require a `_is_valid_judgment` result. Any raise
inside the `try` is a FAIL. -/
def zero_weights_probe (sdk : SDK) : Nat × Detail :=
  match sdk.construct_judgment 0.9 0.1 0.9 fusionChain1 with
  | .error e => (0, ⟨"zero_weights_fallback", .FAIL, "Error: " ++ e⟩)
  | .ok j1 =>
    match sdk.construct_judgment 0.8 0.2 0.8 fusionChain2 with
    | .error e => (0, ⟨"zero_weights_fallback", .FAIL, "Error: " ++ e⟩)
    | .ok j2 =>
      match sdk.conflict_aware_weighted_average [j1, j2] [0.0, 0.0] with
      | .error e => (0, ⟨"zero_weights_fallback", .FAIL, "Error: " ++ e⟩)
      | .ok result =>
        if _is_valid_judgment result then
          (1, ⟨"zero_weights_fallback", .PASS,
            "Zero weights fallback works correctly"⟩)
        else
          (0, ⟨"zero_weights_fallback", .FAIL, "Zero weights fallback failed"⟩)

/-- Model of `TestVectorValidator.validate_edge_cases`: the two edge probes. -/
def validate_edge_cases (sdk : SDK) : CategoryResult :=
  let p1 := single_judgment_probe sdk
  let p2 := zero_weights_probe sdk
  ⟨p1.1 + p2.1, 2, [p1.2, p2.2]⟩

/-- The observable state of one fixture file on disk, as `load_test_vectors`
distinguishes: absent (`Path.exists()` false), present but not parseable JSON
(`json.load` raises), present JSON lacking the `test_vectors` key
(`data['test_vectors']` raises `KeyError`), or well-formed with its vector
list. -/
inductive FixtureFile where
  | absent
  | invalidJson (msg : String)
  | missingKey
  | valid (vs : List JudgmentVector)

/-- Loading one fixture file inside `load_test_vectors`: an absent file is
skipped (no entry, `none`); a malformed file raises out of the function
(`.error`); a well-formed file contributes its `test_vectors` list. -/
def load_fixture_file : FixtureFile → Except String (Option (List JudgmentVector))
  | .absent => .ok none
  | .invalidJson m => .error ("JSONDecodeError: " ++ m)
  | .missingKey => .error "KeyError: test_vectors"
  | .valid vs => .ok (some vs)

/-- The dictionary built by `TestVectorValidator.load_test_vectors`:
optional entries for `judgment_creation` (from `judgments.json`) and
`fusion` (from `fusion-tests.json`, loaded but never consumed). -/
structure LoadedVectors where
  judgment_creation : Option (List JudgmentVector)
  fusion : Option (List JudgmentVector)

/-- Model of `TestVectorValidator.load_test_vectors` (lines 28–46): loads the two
fixture files in order; a malformed file aborts the load (and the run, since
no caller catches the raise). -/
def load_test_vectors (judgments_file fusion_file : FixtureFile) :
    Except String LoadedVectors :=
  match load_fixture_file judgments_file with
  | .error e => .error e
  | .ok j =>
    match load_fixture_file fusion_file with
    | .error e => .error e
    | .ok f => .ok ⟨j, f⟩

/-- The full results tree of a completed run of
`TestVectorValidator.run_validation` (after SDK load succeeded). -/
structure RunResults where
  judgment_creation : CategoryResult
  fusion_operators : CategoryResult
  edge_cases : CategoryResult
  overall_passed : Nat
  overall_total : Nat
  overall_score : ℚ
deriving DecidableEq

/-- Model of `TestVectorValidator.run_validation` (lines 305–339), after the SDK module
itself loaded: load fixtures (a malformed file propagates), run the
judgment-creation category only when its fixture entry exists (otherwise the
pre-initialised zero counters remain), then fusion operators (whose canonical
construction may propagate) and edge cases, and compute the overall score
`passed / total * 100`, `0` when `total = 0`. -/
def run_validation (sdk : SDK) (judgments_file fusion_file : FixtureFile) :
    Except String RunResults :=
  match load_test_vectors judgments_file fusion_file with
  | .error e => .error e
  | .ok loaded =>
    let jc := match loaded.judgment_creation with
      | some vs => validate_judgment_creation sdk vs
      | none => ⟨0, 0, []⟩
    match validate_fusion_operators sdk with
    | .error e => .error e
    | .ok fo =>
      let ec := validate_edge_cases sdk
      let total_passed := jc.passed + fo.passed + ec.passed
      let total_tests := jc.total + fo.total + ec.total
      .ok ⟨jc, fo, ec, total_passed, total_tests,
        if total_tests > 0 then (total_passed : ℚ) / (total_tests : ℚ) * 100
        else 0⟩

/-- The exit-code dispatch at the end of `main` (lines 388–397 of
`validate_vectors.py`, identically lines 261–269 of `check_conformance.py`):
`sys.exit(0)` when the overall score is at least 90, `sys.exit(1)` when it is
at least 70, `sys.exit(2)` otherwise. -/
def main_exit_code (score : ℚ) : Nat :=
  if score ≥ 90 then 0
  else if score ≥ 70 then 1
  else 2

/-! ## `check_conformance.py` — the `ConformanceValidator` harness -/

/-- One iteration of the loop in
`ConformanceValidator.validate_judgment_creation` (lines 47–81). Unlike the
test-runner, the raise path reads `test_case['expected_error']` by direct
subscription: when the key is absent this raises `KeyError` inside the
`except` handler and propagates out of the whole category (modelled as
`.error`). Returns the passed-increment and the printed verdict. -/
def judgment_creation_probe_CC (sdk : SDK) (tc : JudgmentVector) :
    Except String (Nat × Verdict) :=
  match sdk.construct_judgment tc.T tc.I tc.F tc.provenance_chain with
  | .ok _ =>
    if tc.expected_valid then .ok (1, .PASS)
    else .ok (0, .FAIL)
  | .error e =>
    if !tc.expected_valid then
      match tc.expected_error with
      | none => .error "KeyError: expected_error"
      | some expected =>
        if matches_expected_error e expected then .ok (1, .PASS)
        else .ok (1, .WARN)
    else .ok (0, .FAIL)

/-- Model of `ConformanceValidator.validate_judgment_creation`: folds the probe over
the vectors in order; a `KeyError` raised by any probe propagates, discarding
the counts accumulated so far (the function never returns). -/
def validate_judgment_creation_CC (sdk : SDK) (vs : List JudgmentVector) :
    Except String (Nat × Nat) :=
  vs.foldlM
    (fun acc tc => do
      let r ← judgment_creation_probe_CC sdk tc
      return (acc.1 + r.1, acc.2 + 1))
    ((0, 0) : Nat × Nat)

/-- Result-validity check as inlined in each fusion probe of
`check_conformance.py` (e.g. lines 104–105): the same bounds expression as
`_is_valid_judgment`, but NOT wrapped in its own `try` — a raise while reading
the result's fields is caught by the enclosing probe's `except` instead. -/
def cc_result_check (nm : String) (r : JudgmentObj) : Nat × Detail :=
  match judgment_bounds_check r with
  | .error e => (0, ⟨nm, .FAIL, "Error: " ++ e⟩)
  | .ok true => (1, ⟨nm, .PASS, "Valid fusion result"⟩)
  | .ok false => (0, ⟨nm, .FAIL, "Invalid result"⟩)

/-- First probe of `ConformanceValidator.validate_fusion_operators`
(lines 91–114): the construction of the two canonical judgments sits INSIDE
this probe's `try`, so a construction raise is recorded as a FAIL here; the
local variable `judgments` is only bound once both constructions succeed
(before the operator call), and is reported alongside for the later probes. -/
def cc_fusion_probe1 (sdk : SDK) : (Nat × Detail) × Option (List JudgmentObj) :=
  match sdk.construct_judgment 0.8 0.2 0.0 fusionChain1 with
  | .error e =>
    ((0, ⟨"conflict_aware_weighted_average", .FAIL, "Error: " ++ e⟩), none)
  | .ok j1 =>
    match sdk.construct_judgment 0.6 0.3 0.1 fusionChain2 with
    | .error e =>
      ((0, ⟨"conflict_aware_weighted_average", .FAIL, "Error: " ++ e⟩), none)
    | .ok j2 =>
      let judgments := [j1, j2]
      match sdk.conflict_aware_weighted_average judgments [0.6, 0.4] with
      | .error e =>
        ((0, ⟨"conflict_aware_weighted_average", .FAIL, "Error: " ++ e⟩),
          some judgments)
      | .ok result =>
        (cc_result_check "conflict_aware_weighted_average" result,
          some judgments)

/-- Second and third probes of `ConformanceValidator.validate_fusion_operators`
(lines 117–146): they refer to the local `judgments`; when the first probe's
construction failed, that name was never bound, so the reference raises
`NameError`, caught by this probe's own `except Exception` and recorded FAIL. -/
def cc_fusion_probe_rest (nm : String)
    (f : List JudgmentObj → Except String JudgmentObj)
    (judgments : Option (List JudgmentObj)) : Nat × Detail :=
  match judgments with
  | none => (0, ⟨nm, .FAIL, "Error: name judgments is not defined"⟩)
  | some js =>
    match f js with
    | .error e => (0, ⟨nm, .FAIL, "Error: " ++ e⟩)
    | .ok result => cc_result_check nm result

/-- Model of `ConformanceValidator.validate_fusion_operators` (lines 84–148): three
probes, each in its own `try`; the function always returns normally with
`total = 3`. -/
def validate_fusion_operators_CC (sdk : SDK) : CategoryResult :=
  let p1 := cc_fusion_probe1 sdk
  let p2 := cc_fusion_probe_rest "optimistic_fusion" sdk.optimistic_fusion p1.2
  let p3 := cc_fusion_probe_rest "pessimistic_fusion" sdk.pessimistic_fusion p1.2
  ⟨p1.1.1 + p2.1 + p3.1, 3, [p1.1.2, p2.2, p3.2]⟩

/-- Model of `ConformanceValidator.validate_provenance_chain` (lines 150–186), its print
lines recorded as details. The outer `try` covers: construction of a judgment
with a one-entry chain, the length-1 check (`total += 1` after it), and the
append attempt whose inner handler catches ONLY `AttributeError` and
`TypeError` (then `total += 1`). Any other exception — from construction, the
length read, or the append — reaches the outer `except Exception`, which
prints one category-level error and does `total += 2` on top of whatever
`total` already holds. -/
def validate_provenance_chain (sdk : SDK) : CategoryResult :=
  match sdk.construct_judgment 0.8 0.2 0.0 testChain with
  | .error e =>
    ⟨0, 2, [⟨"Provenance chain tests", .FAIL, "Error: " ++ e⟩]⟩
  | .ok judgment =>
    match judgment.provenance_chain_len with
    | .error e =>
      ⟨0, 2, [⟨"Provenance chain tests", .FAIL, "Error: " ++ e⟩]⟩
    | .ok n =>
      let c : Nat × Detail :=
        if n = 1 then (1, ⟨"Provenance chain creation", .PASS, ""⟩)
        else (0, ⟨"Provenance chain creation", .FAIL, "Wrong length"⟩)
      match judgment.provenance_chain_append with
      | .returned =>
        ⟨c.1, 2,
          [c.2, ⟨"Provenance chain immutability", .FAIL, "Should be immutable"⟩]⟩
      | .attrOrTypeError _ =>
        ⟨c.1 + 1, 2, [c.2, ⟨"Provenance chain immutability", .PASS, ""⟩]⟩
      | .otherError e =>
        ⟨c.1, 1 + 2,
          [c.2, ⟨"Provenance chain tests", .FAIL, "Error: " ++ e⟩]⟩

/-! ## Concrete candidate SDKs used to instantiate the theorems -/

/-- A judgment object all of whose attribute reads succeed. -/
def mkObj (t i f : ℚ) (n : Nat) (a : AppendOutcome) : JudgmentObj :=
  ⟨.ok t, .ok i, .ok f, .ok n, a⟩

/-- A fixed valid fusion result (T=0.7, I=0.2, F=0.1). -/
def okObj : JudgmentObj := mkObj 0.7 0.2 0.1 1 (.attrOrTypeError "AttributeError")

/-- A candidate whose constructor always succeeds, echoing its arguments, with
an immutable chain (append raises `AttributeError`), and whose fusion
operators always return the fixed valid `okObj`. -/
def okSDK : SDK where
  construct_judgment := fun t i f c =>
    .ok (mkObj t i f c.length (.attrOrTypeError "AttributeError"))
  conflict_aware_weighted_average := fun _ _ => .ok okObj
  optimistic_fusion := fun _ => .ok okObj
  pessimistic_fusion := fun _ => .ok okObj

/-- A candidate whose constructor always raises with message `"invalid sum"`. -/
def raiseSDK : SDK where
  construct_judgment := fun _ _ _ _ => .error "invalid sum"
  conflict_aware_weighted_average := fun _ _ => .ok okObj
  optimistic_fusion := fun _ => .ok okObj
  pessimistic_fusion := fun _ => .ok okObj

/-- A candidate whose constructed judgments raise `ValueError` (neither
`AttributeError` nor `TypeError`) on a chain-append attempt. -/
def otherAppendSDK : SDK where
  construct_judgment := fun t i f c =>
    .ok (mkObj t i f c.length (.otherError "ValueError: frozen"))
  conflict_aware_weighted_average := fun _ _ => .ok okObj
  optimistic_fusion := fun _ => .ok okObj
  pessimistic_fusion := fun _ => .ok okObj

/-- A candidate whose weighted-average fusion keeps T but zeroes I and F:
its single-judgment fusion result matches the input's T while differing in I. -/
def dropISDK : SDK where
  construct_judgment := fun t i f c => .ok (mkObj t i f c.length .returned)
  conflict_aware_weighted_average := fun _ _ => .ok (mkObj 0.8 0 0 1 .returned)
  optimistic_fusion := fun _ => .ok okObj
  pessimistic_fusion := fun _ => .ok okObj

/-- A valid fixture vector expected to construct successfully. -/
def vecValid : JudgmentVector :=
  ⟨"basic_valid", 0.7, 0.2, 0.1, testChain, true, none⟩

/-- A fixture vector expected to be rejected, with a pinned error substring. -/
def vecInvalid : JudgmentVector :=
  ⟨"sum_exceeds_one", 0.6, 0.5, 0.1, testChain, false, some "sum"⟩

/-- A fixture vector expected to be rejected, with NO `expected_error` key. -/
def vecNoErr : JudgmentVector :=
  ⟨"sum_exceeds_one_no_hint", 0.6, 0.5, 0.1, testChain, false, none⟩

/-- A judgment object whose `T` attribute read raises. -/
def errObj : JudgmentObj :=
  ⟨.error "AttributeError: T", .ok 0, .ok 0, .ok 1, .returned⟩

/-- The full results tree of `run_validation okSDK .absent .absent`:
no judgment-creation fixtures, all three fusion probes pass, the
single-judgment edge probe fails (`okSDK` fuses to T = 0.7, not 0.8), the
zero-weights probe passes: 4 of 5, score 80. -/
def okRun : RunResults :=
  ⟨⟨0, 0, []⟩,
   ⟨3, 3, [⟨"conflict_aware_weighted_average", .PASS, "Valid fusion result"⟩,
           ⟨"optimistic_fusion", .PASS, "Valid fusion result"⟩,
           ⟨"pessimistic_fusion", .PASS, "Valid fusion result"⟩]⟩,
   ⟨1, 2, [⟨"single_judgment_fusion", .FAIL, "Single judgment fusion failed"⟩,
           ⟨"zero_weights_fallback", .PASS,
             "Zero weights fallback works correctly"⟩]⟩,
   4, 5, 80⟩

/-! ## Helper lemmas about the validity predicate -/

theorem judgment_bounds_check_ok (t i f : ℚ) (n : Except String Nat)
    (a : AppendOutcome) :
    judgment_bounds_check ⟨.ok t, .ok i, .ok f, n, a⟩ =
      .ok (decide (0 ≤ t ∧ t ≤ 1 ∧ 0 ≤ i ∧ i ≤ 1 ∧ 0 ≤ f ∧ f ≤ 1 ∧
        t + i + f ≤ 1)) := by
  by_cases h1 : (0 : ℚ) ≤ t <;> by_cases h2 : t ≤ 1 <;>
    by_cases h3 : (0 : ℚ) ≤ i <;> by_cases h4 : i ≤ 1 <;>
    by_cases h5 : (0 : ℚ) ≤ f <;> by_cases h6 : f ≤ 1 <;>
    simp [judgment_bounds_check, h1, h2, h3, h4, h5, h6]

theorem is_valid_judgment_ok (t i f : ℚ) (n : Except String Nat)
    (a : AppendOutcome) :
    _is_valid_judgment ⟨.ok t, .ok i, .ok f, n, a⟩ =
      decide (0 ≤ t ∧ t ≤ 1 ∧ 0 ≤ i ∧ i ≤ 1 ∧ 0 ≤ f ∧ f ≤ 1 ∧
        t + i + f ≤ 1) := by
  rw [_is_valid_judgment, judgment_bounds_check_ok]

theorem is_valid_judgment_errT (e : String) (I F : Except String ℚ)
    (n : Except String Nat) (a : AppendOutcome) :
    _is_valid_judgment ⟨.error e, I, F, n, a⟩ = false := by
  simp [_is_valid_judgment, judgment_bounds_check]

theorem is_valid_judgment_errI (t : ℚ) (e : String) (F : Except String ℚ)
    (n : Except String Nat) (a : AppendOutcome) :
    _is_valid_judgment ⟨.ok t, .error e, F, n, a⟩ = false := by
  by_cases h1 : (0 : ℚ) ≤ t <;> by_cases h2 : t ≤ 1 <;>
    simp [_is_valid_judgment, judgment_bounds_check, h1, h2]

theorem is_valid_judgment_errF (t i : ℚ) (e : String)
    (n : Except String Nat) (a : AppendOutcome) :
    _is_valid_judgment ⟨.ok t, .ok i, .error e, n, a⟩ = false := by
  by_cases h1 : (0 : ℚ) ≤ t <;> by_cases h2 : t ≤ 1 <;>
    by_cases h3 : (0 : ℚ) ≤ i <;> by_cases h4 : i ≤ 1 <;>
    simp [_is_valid_judgment, judgment_bounds_check, h1, h2, h3, h4]

theorem is_valid_judgment_eq_true_iff (j : JudgmentObj) :
    _is_valid_judgment j = true ↔
      ∃ t i f : ℚ, j.T = .ok t ∧ j.I = .ok i ∧ j.F = .ok f ∧
        0 ≤ t ∧ t ≤ 1 ∧ 0 ≤ i ∧ i ≤ 1 ∧ 0 ≤ f ∧ f ≤ 1 ∧ t + i + f ≤ 1 := by
  obtain ⟨T, I, F, n, a⟩ := j
  cases T with
  | error e => simp [is_valid_judgment_errT]
  | ok t =>
    cases I with
    | error e => simp [is_valid_judgment_errI]
    | ok i =>
      cases F with
      | error e => simp [is_valid_judgment_errF]
      | ok f =>
        rw [is_valid_judgment_ok]
        simp only [decide_eq_true_eq, Except.ok.injEq]
        constructor
        · rintro ⟨h1, h2, h3, h4, h5, h6, h7⟩
          exact ⟨t, i, f, rfl, rfl, rfl, h1, h2, h3, h4, h5, h6, h7⟩
        · rintro ⟨t', i', f', rfl, rfl, rfl, h1, h2, h3, h4, h5, h6, h7⟩
          exact ⟨h1, h2, h3, h4, h5, h6, h7⟩

theorem matches_expected_error_empty (s : String) :
    matches_expected_error s "" = false := rfl

theorem is_valid_judgment_mkObj_eq (t i f : ℚ) (n : Nat) (a : AppendOutcome) :
    _is_valid_judgment (mkObj t i f n a) =
      decide (0 ≤ t ∧ t ≤ 1 ∧ 0 ≤ i ∧ i ≤ 1 ∧ 0 ≤ f ∧ f ≤ 1 ∧
        t + i + f ≤ 1) :=
  is_valid_judgment_ok t i f (.ok n) a

theorem okObj_valid : _is_valid_judgment okObj = true := by
  rw [okObj, is_valid_judgment_mkObj_eq]
  norm_num

theorem judgment_creation_probe_test (sdk : SDK) (tc : JudgmentVector) :
    (judgment_creation_probe sdk tc).1.test = tc.name := by
  rw [judgment_creation_probe]
  split
  · split <;> rfl
  · split
    · dsimp only
      split <;> rfl
    · rfl

theorem validate_judgment_creation_names (sdk : SDK)
    (vs : List JudgmentVector) :
    (validate_judgment_creation sdk vs).details.map Detail.test =
      vs.map JudgmentVector.name := by
  simp only [validate_judgment_creation, List.map_map]
  induction vs with
  | nil => rfl
  | cons tc rest ih =>
    simp only [List.map_cons, Function.comp_apply,
      judgment_creation_probe_test] at *
    rw [ih]

/-- Evaluation of `validate_fusion_operators` on the fully conformant `okSDK`: all three
probes pass. -/
theorem fusion_okSDK :
    validate_fusion_operators okSDK = .ok okRun.fusion_operators := by
  simp [validate_fusion_operators, okSDK, fusion_operator_probe, okObj_valid,
    okRun]

/-- Evaluation of `validate_edge_cases` on `okSDK`: the single-judgment probe fails
(fused T is 0.7, not 0.8), the zero-weights probe passes. -/
theorem edge_okSDK : validate_edge_cases okSDK = okRun.edge_cases := by
  have h78 : ¬ ((0.7 : ℚ) = 0.8) := by norm_num
  have hT : okObj.T = .ok 0.7 := rfl
  simp [validate_edge_cases, single_judgment_probe, zero_weights_probe,
    okSDK, okObj_valid, hT, h78, okRun]

/-- The complete `okSDK` run with no fixture files. -/
theorem run_okSDK : run_validation okSDK .absent .absent = .ok okRun := by
  have h80 : ((4 : ℚ) / 5 * 100) = 80 := by norm_num
  simp only [run_validation, load_test_vectors, load_fixture_file,
    fusion_okSDK, edge_okSDK, okRun]
  norm_num

/-! ## Claims -/

/-- Claim C6: `is_valid_judgment(j)` returns true iff
`0 ≤ T ≤ 1 ∧ 0 ≤ I ≤ 1 ∧ 0 ≤ F ≤ 1 ∧ T + I + F ≤ 1` for the values its field
reads deliver, and an object whose field reads raise yields false rather than
a propagated exception. -/
theorem C6_is_valid_judgment (j : JudgmentObj) :
    (∀ t i f : ℚ, j.T = .ok t → j.I = .ok i → j.F = .ok f →
      (_is_valid_judgment j = true ↔
        (0 ≤ t ∧ t ≤ 1 ∧ 0 ≤ i ∧ i ≤ 1 ∧ 0 ≤ f ∧ f ≤ 1 ∧ t + i + f ≤ 1))) ∧
    (((∃ e, j.T = .error e) ∨ (∃ e, j.I = .error e) ∨ (∃ e, j.F = .error e)) →
      _is_valid_judgment j = false) := by
  constructor
  · intro t i f hT hI hF
    rw [is_valid_judgment_eq_true_iff]
    constructor
    · rintro ⟨t', i', f', hT', hI', hF', h⟩
      rw [hT] at hT'; rw [hI] at hI'; rw [hF] at hF'
      cases hT'; cases hI'; cases hF'
      exact h
    · intro h
      exact ⟨t, i, f, hT, hI, hF, h⟩
  · intro h
    obtain ⟨T, I, F, n, a⟩ := j
    rcases h with ⟨e, he⟩ | ⟨e, he⟩ | ⟨e, he⟩ <;> simp only at he <;> subst he
    · exact is_valid_judgment_errT e I F n a
    · cases T with
      | error e' => exact is_valid_judgment_errT e' _ F n a
      | ok t => exact is_valid_judgment_errI t e F n a
    · cases T with
      | error e' => exact is_valid_judgment_errT e' _ _ n a
      | ok t =>
        cases I with
        | error e' => exact is_valid_judgment_errI t e' _ n a
        | ok i => exact is_valid_judgment_errF t i e n a

/-- Witness for C6 at concrete objects: a valid triple and a raising read. -/
theorem C6_witness :
    _is_valid_judgment (mkObj 0.7 0.2 0.1 1 .returned) = true ∧
    _is_valid_judgment errObj = false :=
  ⟨((C6_is_valid_judgment (mkObj 0.7 0.2 0.1 1 .returned)).1
      0.7 0.2 0.1 rfl rfl rfl).mpr (by norm_num),
   (C6_is_valid_judgment errObj).2 (Or.inl ⟨"AttributeError: T", rfl⟩)⟩

/-- Claim C1 (amended): in both harnesses, a successful construction with
`expected_valid = true` is a PASS, a successful construction with
`expected_valid = false` is a FAIL, and a raise with `expected_valid = true`
is a FAIL. Each `validate_vectors.py` probe reaches exactly one of the three
terminal verdicts; a `check_conformance.py` probe does so too EXCEPT in the
one case where construction raises, `expected_valid` is false and the
`expected_error` key is absent: there the probe raises `KeyError` and reaches
no verdict. -/
theorem C1_amended (sdk : SDK) (tc : JudgmentVector) :
    (∀ j, sdk.construct_judgment tc.T tc.I tc.F tc.provenance_chain = .ok j →
        tc.expected_valid = true →
        (judgment_creation_probe sdk tc).1.status = .PASS ∧
        judgment_creation_probe_CC sdk tc = .ok (1, .PASS)) ∧
    (∀ j, sdk.construct_judgment tc.T tc.I tc.F tc.provenance_chain = .ok j →
        tc.expected_valid = false →
        (judgment_creation_probe sdk tc).1.status = .FAIL ∧
        judgment_creation_probe_CC sdk tc = .ok (0, .FAIL)) ∧
    (∀ e, sdk.construct_judgment tc.T tc.I tc.F tc.provenance_chain = .error e →
        tc.expected_valid = true →
        (judgment_creation_probe sdk tc).1.status = .FAIL ∧
        judgment_creation_probe_CC sdk tc = .ok (0, .FAIL)) ∧
    ((judgment_creation_probe sdk tc).1.status = .PASS ∨
      (judgment_creation_probe sdk tc).1.status = .WARN ∨
      (judgment_creation_probe sdk tc).1.status = .FAIL) ∧
    (judgment_creation_probe_CC sdk tc = .error "KeyError: expected_error" ↔
      tc.expected_valid = false ∧ tc.expected_error = none ∧
        ∃ e, sdk.construct_judgment tc.T tc.I tc.F tc.provenance_chain =
          .error e) := by
  cases hc : sdk.construct_judgment tc.T tc.I tc.F tc.provenance_chain with
  | ok j =>
    cases hv : tc.expected_valid <;>
      simp [judgment_creation_probe, judgment_creation_probe_CC, hc, hv]
  | error e =>
    cases hv : tc.expected_valid
    · cases he : tc.expected_error with
      | none =>
        simp [judgment_creation_probe, judgment_creation_probe_CC, hc, hv, he,
          matches_expected_error_empty]
      | some s =>
        by_cases hm : matches_expected_error e s = true <;>
          simp_all [judgment_creation_probe, judgment_creation_probe_CC, hc,
            hv, he]
    · simp [judgment_creation_probe, judgment_creation_probe_CC, hc, hv]

/-- Counterexample for C1 as stated: against a candidate whose constructor
raises, the `check_conformance.py` judgment-creation probe on a vector with
`expected_valid = false` and no `expected_error` key raises `KeyError` and
reaches NO terminal verdict. -/
theorem C1_counterexample :
    judgment_creation_probe_CC raiseSDK vecNoErr =
      .error "KeyError: expected_error" ∧
    (judgment_creation_probe_CC raiseSDK vecNoErr).isOk = false :=
  ⟨rfl, rfl⟩

/-- Witness for C1 at concrete inputs, one per hypothesis shape. -/
theorem C1_witness :
    (judgment_creation_probe okSDK vecValid).1.status = Verdict.PASS ∧
    (judgment_creation_probe okSDK vecInvalid).1.status = Verdict.FAIL ∧
    (judgment_creation_probe raiseSDK vecValid).1.status = Verdict.FAIL :=
  ⟨((C1_amended okSDK vecValid).1 _ rfl rfl).1,
   ((C1_amended okSDK vecInvalid).2.1 _ rfl rfl).1,
   ((C1_amended raiseSDK vecValid).2.2.1 _ rfl rfl).1⟩

/-- Claim C2 (amended): on the raise path with `expected_valid = false`, the
`validate_vectors.py` probe is PASS when the expected error is a non-empty
literal substring of the message and WARN otherwise, counted toward `passed`
in both cases; an empty expected error always fails the match and forces
WARN, and an absent key does too (via `.get(…, '')`), never aborting. The
`check_conformance.py` probe behaves identically when the `expected_error`
key is present, but an absent key raises `KeyError` and aborts the category. -/
theorem C2_amended (sdk : SDK) (tc : JudgmentVector) (e : String)
    (hc : sdk.construct_judgment tc.T tc.I tc.F tc.provenance_chain = .error e)
    (hv : tc.expected_valid = false) :
    (matches_expected_error e (tc.expected_error.getD "") = true →
        (judgment_creation_probe sdk tc).1.status = .PASS) ∧
    (matches_expected_error e (tc.expected_error.getD "") = false →
        (judgment_creation_probe sdk tc).1.status = .WARN) ∧
    (judgment_creation_probe sdk tc).2 = 1 ∧
    (∀ s : String, matches_expected_error s "" = false) ∧
    (tc.expected_error = none →
        (judgment_creation_probe sdk tc).1.status = .WARN) ∧
    (∀ s, tc.expected_error = some s →
        judgment_creation_probe_CC sdk tc =
          .ok (1, if matches_expected_error e s then Verdict.PASS
                  else Verdict.WARN)) ∧
    (tc.expected_error = none →
        judgment_creation_probe_CC sdk tc = .error "KeyError: expected_error") := by
  refine ⟨?_, ?_, ?_, fun s => matches_expected_error_empty s, ?_, ?_, ?_⟩ <;>
    cases he : tc.expected_error <;>
    by_cases hm : matches_expected_error e (tc.expected_error.getD "") = true <;>
    simp_all [judgment_creation_probe, judgment_creation_probe_CC,
      matches_expected_error_empty]

/-- Counterexample for C2 as stated: construction raises, `expected_valid` is
false and `expected_error` is absent, yet the `check_conformance.py`
judgment-creation category aborts with `KeyError` instead of recording WARN. -/
theorem C2_counterexample :
    raiseSDK.construct_judgment vecNoErr.T vecNoErr.I vecNoErr.F
      vecNoErr.provenance_chain = .error "invalid sum" ∧
    vecNoErr.expected_valid = false ∧
    vecNoErr.expected_error = none ∧
    validate_judgment_creation_CC raiseSDK [vecNoErr] =
      .error "KeyError: expected_error" :=
  ⟨rfl, rfl, rfl, rfl⟩

/-- Witness for C2 at concrete inputs: matching substring gives PASS (both
harnesses), empty expected error fails the match, absent key aborts in
`check_conformance.py`. -/
theorem C2_witness :
    (judgment_creation_probe raiseSDK vecInvalid).1.status = Verdict.PASS ∧
    matches_expected_error "whatever" "" = false ∧
    judgment_creation_probe_CC raiseSDK vecInvalid = .ok (1, Verdict.PASS) ∧
    judgment_creation_probe_CC raiseSDK vecNoErr =
      .error "KeyError: expected_error" := by
  have h := C2_amended raiseSDK vecInvalid "invalid sum" rfl rfl
  have h' := C2_amended raiseSDK vecNoErr "invalid sum" rfl rfl
  have hm : matches_expected_error "invalid sum" "sum" = true := by decide
  refine ⟨h.1 (by exact hm), h.2.2.2.1 "whatever", ?_, h'.2.2.2.2.2.2 rfl⟩
  have := h.2.2.2.2.2.1 "sum" rfl
  rw [hm] at this
  simpa using this

/-- Claim C3 (amended): in the immutability probe of
`check_conformance.validate_provenance_chain`, an append attempt that raises
`AttributeError` or `TypeError` is a PASS and an append that returns normally
is a FAIL; but an append raising any OTHER exception escapes the inner
handler to the category-level handler: the immutability probe records no
verdict at all (a category-level FAIL line is printed instead and the
category total becomes 3). -/
theorem C3_amended (sdk : SDK) (j : JudgmentObj) (n : Nat)
    (hc : sdk.construct_judgment 0.8 0.2 0.0 testChain = .ok j)
    (hl : j.provenance_chain_len = .ok n) :
    (j.provenance_chain_append = .returned →
        (validate_provenance_chain sdk).details.get? 1 =
          some ⟨"Provenance chain immutability", .FAIL, "Should be immutable"⟩ ∧
        (validate_provenance_chain sdk).total = 2) ∧
    (∀ m, j.provenance_chain_append = .attrOrTypeError m →
        (validate_provenance_chain sdk).details.get? 1 =
          some ⟨"Provenance chain immutability", .PASS, ""⟩ ∧
        (validate_provenance_chain sdk).total = 2) ∧
    (∀ m, j.provenance_chain_append = .otherError m →
        (validate_provenance_chain sdk).details.get? 1 =
          some ⟨"Provenance chain tests", .FAIL, "Error: " ++ m⟩ ∧
        (validate_provenance_chain sdk).total = 3) := by
  refine ⟨?_, ?_, ?_⟩ <;>
    first
    | (intro ha; by_cases hn : n = 1 <;>
        simp [validate_provenance_chain, hc, hl, ha, hn])
    | (intro m ha; by_cases hn : n = 1 <;>
        simp [validate_provenance_chain, hc, hl, ha, hn])

/-- Counterexample for C3 as stated: a candidate whose append attempt raises
`ValueError` — an error — yet the immutability probe is NOT a PASS: the
category records a FAIL line and total 3. -/
theorem C3_counterexample :
    otherAppendSDK.construct_judgment 0.8 0.2 0.0 testChain =
      .ok (mkObj 0.8 0.2 0.0 1 (.otherError "ValueError: frozen")) ∧
    (mkObj 0.8 0.2 0.0 1
        (.otherError "ValueError: frozen")).provenance_chain_append =
      .otherError "ValueError: frozen" ∧
    validate_provenance_chain otherAppendSDK =
      ⟨1, 3, [⟨"Provenance chain creation", .PASS, ""⟩,
              ⟨"Provenance chain tests", .FAIL, "Error: ValueError: frozen"⟩]⟩ :=
  ⟨rfl, rfl, rfl⟩

/-- Witness for C3 at a concrete candidate whose append raises
`AttributeError`: the immutability probe records PASS. -/
theorem C3_witness :
    (validate_provenance_chain okSDK).details.get? 1 =
      some ⟨"Provenance chain immutability", Verdict.PASS, ""⟩ :=
  (((C3_amended okSDK (mkObj 0.8 0.2 0.0 1 (.attrOrTypeError "AttributeError"))
      1 rfl rfl).2.1) "AttributeError" rfl).1

/-- Claim C10: when construction succeeds, the length check has run
(`total += 1`) and the append attempt raises something that is neither
`AttributeError` nor `TypeError`, the exception reaches the outer handler,
which adds 2 more: `validate_provenance_chain` reports `total = 3` for its
two probes. -/
theorem C10_provenance_total_three (sdk : SDK) (j : JudgmentObj) (n : Nat)
    (m : String)
    (hc : sdk.construct_judgment 0.8 0.2 0.0 testChain = .ok j)
    (hl : j.provenance_chain_len = .ok n)
    (ha : j.provenance_chain_append = .otherError m) :
    (validate_provenance_chain sdk).total = 3 := by
  by_cases hn : n = 1 <;>
    simp [validate_provenance_chain, hc, hl, ha, hn]

/-- Witness for C10 at a concrete candidate raising `ValueError` on append. -/
theorem C10_witness : (validate_provenance_chain otherAppendSDK).total = 3 :=
  C10_provenance_total_three otherAppendSDK
    (mkObj 0.8 0.2 0.0 1 (.otherError "ValueError: frozen")) 1
    "ValueError: frozen" rfl rfl rfl

/-- Claim C4 (amended): an exception raised by an operator call inside a
fusion probe is caught at that probe's boundary and recorded FAIL; and when
the canonical constructions succeed, `validate_vectors.py`'s fusion category
returns normally with three probe results. In `check_conformance.py` even a
construction exception is caught inside the first probe (recorded FAIL, the
later probes fail on the unbound `judgments` name, the category returns
normally with total 3) — but in `validate_vectors.py` the two canonical
judgments are constructed OUTSIDE any `try`, so a construction exception
propagates out of `validate_fusion_operators` and aborts the run. -/
theorem C4_amended (sdk : SDK) :
    (∀ nm e, fusion_operator_probe nm (.error e) =
        (0, ⟨nm, Verdict.FAIL, "Error: " ++ e⟩)) ∧
    (∀ j1 j2, sdk.construct_judgment 0.8 0.2 0.0 fusionChain1 = .ok j1 →
        sdk.construct_judgment 0.6 0.3 0.1 fusionChain2 = .ok j2 →
        validate_fusion_operators sdk = .ok
          ⟨(fusion_operator_probe "conflict_aware_weighted_average"
              (sdk.conflict_aware_weighted_average [j1, j2] [0.6, 0.4])).1 +
            (fusion_operator_probe "optimistic_fusion"
              (sdk.optimistic_fusion [j1, j2])).1 +
            (fusion_operator_probe "pessimistic_fusion"
              (sdk.pessimistic_fusion [j1, j2])).1, 3,
           [(fusion_operator_probe "conflict_aware_weighted_average"
              (sdk.conflict_aware_weighted_average [j1, j2] [0.6, 0.4])).2,
            (fusion_operator_probe "optimistic_fusion"
              (sdk.optimistic_fusion [j1, j2])).2,
            (fusion_operator_probe "pessimistic_fusion"
              (sdk.pessimistic_fusion [j1, j2])).2]⟩) ∧
    (∀ e, sdk.construct_judgment 0.8 0.2 0.0 fusionChain1 = .error e →
        validate_fusion_operators sdk = .error e ∧
        validate_fusion_operators_CC sdk =
          ⟨0, 3,
           [⟨"conflict_aware_weighted_average", .FAIL, "Error: " ++ e⟩,
            ⟨"optimistic_fusion", .FAIL,
              "Error: name judgments is not defined"⟩,
            ⟨"pessimistic_fusion", .FAIL,
              "Error: name judgments is not defined"⟩]⟩) := by
  refine ⟨fun nm e => rfl, ?_, ?_⟩
  · intro j1 j2 h1 h2
    simp [validate_fusion_operators, h1, h2]
  · intro e h1
    constructor
    · simp [validate_fusion_operators, h1]
    · simp [validate_fusion_operators_CC, cc_fusion_probe1,
        cc_fusion_probe_rest, h1]

/-- Counterexample for C4 as stated: a candidate whose constructor raises
makes the construction of the two canonical judgments raise, and that
exception DOES propagate out of `validate_vectors.py`'s fusion-operators
category — and aborts the whole run. -/
theorem C4_counterexample :
    validate_fusion_operators raiseSDK = .error "invalid sum" ∧
    run_validation raiseSDK .absent .absent = .error "invalid sum" :=
  ⟨rfl, rfl⟩

/-- Witness for C4 at concrete candidates: an operator raise is recorded
FAIL; a fully-succeeding candidate yields a normal three-probe category; a
construction-raising candidate yields the CC category with three FAILs. -/
theorem C4_witness :
    fusion_operator_probe "optimistic_fusion" (.error "boom") =
      (0, ⟨"optimistic_fusion", Verdict.FAIL, "Error: boom"⟩) ∧
    validate_fusion_operators okSDK =
      .ok ⟨3, 3, [⟨"conflict_aware_weighted_average", .PASS,
                    "Valid fusion result"⟩,
                  ⟨"optimistic_fusion", .PASS, "Valid fusion result"⟩,
                  ⟨"pessimistic_fusion", .PASS, "Valid fusion result"⟩]⟩ ∧
    validate_fusion_operators_CC raiseSDK =
      ⟨0, 3, [⟨"conflict_aware_weighted_average", .FAIL, "Error: invalid sum"⟩,
              ⟨"optimistic_fusion", .FAIL,
                "Error: name judgments is not defined"⟩,
              ⟨"pessimistic_fusion", .FAIL,
                "Error: name judgments is not defined"⟩]⟩ := by
  refine ⟨(C4_amended okSDK).1 "optimistic_fusion" "boom", ?_,
    ((C4_amended raiseSDK).2.2 "invalid sum" rfl).2⟩
  have h := (C4_amended okSDK).2.1
    (mkObj 0.8 0.2 0.0 1 (.attrOrTypeError "AttributeError"))
    (mkObj 0.6 0.3 0.1 1 (.attrOrTypeError "AttributeError")) rfl rfl
  rw [h]
  simp [okSDK, fusion_operator_probe, okObj_valid]

/-- Claim C5 (amended): the single-judgment edge probe passes iff the
construction and the `[1.0]`-weighted fusion both succeed, the result is
valid per `_is_valid_judgment`, and the result's T equals 0.8 (the sole
input's T). The probe compares ONLY the T component; I and F are not
compared. -/
theorem C5_amended (sdk : SDK) :
    (single_judgment_probe sdk).2.status = Verdict.PASS ↔
      ∃ j r, sdk.construct_judgment 0.8 0.2 0.0 testChain = .ok j ∧
        sdk.conflict_aware_weighted_average [j] [1.0] = .ok r ∧
        _is_valid_judgment r = true ∧ r.T = .ok 0.8 := by
  cases hc : sdk.construct_judgment 0.8 0.2 0.0 testChain with
  | error e => simp [single_judgment_probe, hc]
  | ok j =>
    cases hf : sdk.conflict_aware_weighted_average [j] [1.0] with
    | error e => simp [single_judgment_probe, hc, hf]
    | ok r =>
      by_cases hv : _is_valid_judgment r = true
      · cases hT : r.T with
        | error e => simp [single_judgment_probe, hc, hf, hv, hT]
        | ok t =>
          by_cases ht : t = 0.8 <;>
            simp [single_judgment_probe, hc, hf, hv, hT, ht]
      · simp [single_judgment_probe, hc, hf,
          Bool.not_eq_true _ ▸ hv, hv]

/-- Counterexample for C5 as stated: a candidate whose weighted average keeps
T but zeroes I and F passes the probe although the result is NOT numerically
equal to the sole input in all three components (I differs: 0 vs 0.2). -/
theorem C5_counterexample :
    (single_judgment_probe dropISDK).2.status = Verdict.PASS ∧
    dropISDK.construct_judgment 0.8 0.2 0.0 testChain =
      .ok (mkObj 0.8 0.2 0.0 1 .returned) ∧
    dropISDK.conflict_aware_weighted_average
        [mkObj 0.8 0.2 0.0 1 .returned] [1.0] =
      .ok (mkObj 0.8 0 0 1 .returned) ∧
    (mkObj 0.8 0.2 0.0 1 .returned).I = .ok 0.2 ∧
    (mkObj 0.8 0 0 1 .returned).I = .ok 0 ∧
    (0.2 : ℚ) ≠ 0 := by
  have hv : _is_valid_judgment (mkObj 0.8 0 0 1 .returned) = true := by
    rw [is_valid_judgment_mkObj_eq]; norm_num
  have hT : (mkObj (0.8 : ℚ) 0 0 1 .returned).T = .ok 0.8 := rfl
  refine ⟨?_, rfl, rfl, rfl, rfl, by norm_num⟩
  simp [single_judgment_probe, dropISDK, hv, hT]

/-- Claim C7: for a completed run, `score = 100 * passed / total` (0 when
`total = 0`, not a division fault), and the process exits 0 when the score is
at least 90, 1 when it is in [70, 90), and 2 when it is below 70. -/
theorem C7_score_and_exit (sdk : SDK) (jf ff : FixtureFile) (r : RunResults)
    (s : ℚ) (h : run_validation sdk jf ff = .ok r) :
    (r.overall_total = 0 → r.overall_score = 0) ∧
    (r.overall_total ≠ 0 →
        r.overall_score =
          100 * (r.overall_passed : ℚ) / (r.overall_total : ℚ)) ∧
    (90 ≤ s → main_exit_code s = 0) ∧
    (70 ≤ s ∧ s < 90 → main_exit_code s = 1) ∧
    (s < 70 → main_exit_code s = 2) := by
  have hshape : r.overall_score =
      if r.overall_total > 0
      then (r.overall_passed : ℚ) / (r.overall_total : ℚ) * 100 else 0 := by
    rw [run_validation] at h
    cases hl : load_test_vectors jf ff with
    | error e => rw [hl] at h; cases h
    | ok loaded =>
      rw [hl] at h
      cases hf : validate_fusion_operators sdk with
      | error e => simp only [hf] at h; cases h
      | ok fo =>
        simp only [hf, Except.ok.injEq] at h
        subst h
        rfl
  refine ⟨?_, ?_, ?_, ?_, ?_⟩
  · intro h0; simp [hshape, h0]
  · intro hne
    rw [hshape, if_pos (Nat.pos_of_ne_zero hne)]
    ring
  · intro hs; simp [main_exit_code, hs]
  · rintro ⟨h1, h2⟩
    rw [main_exit_code, if_neg (by linarith), if_pos h1]
  · intro hs
    rw [main_exit_code, if_neg (by linarith), if_neg (by linarith)]

/-- Witness for C7: the concrete `okSDK` run has 5 probes, 4 passed, score
80 = 100·4/5; the three exit-code bands at concrete scores. -/
theorem C7_witness :
    okRun.overall_total ≠ 0 ∧
    okRun.overall_score =
      100 * (okRun.overall_passed : ℚ) / (okRun.overall_total : ℚ) ∧
    main_exit_code 95 = 0 ∧ main_exit_code 80 = 1 ∧ main_exit_code 50 = 2 := by
  have h1 := C7_score_and_exit okSDK .absent .absent okRun 95 run_okSDK
  have h2 := C7_score_and_exit okSDK .absent .absent okRun 80 run_okSDK
  have h3 := C7_score_and_exit okSDK .absent .absent okRun 50 run_okSDK
  exact ⟨by simp [okRun], h1.2.1 (by simp [okRun]), h1.2.2.1 (by norm_num),
    h2.2.2.2.1 ⟨by norm_num, by norm_num⟩, h3.2.2.2.2 (by norm_num)⟩

/-- Claim C8: an absent `judgments.json` yields zero vectors for the
judgment-creation category without aborting; a malformed or key-missing file
makes the load (and hence the run, before any probe) abort; loaded vectors
are processed exactly in file order, without deduplication or reordering. -/
theorem C8_fixture_loading (sdk : SDK) (ff : FixtureFile) (m : String)
    (vs : List JudgmentVector) :
    load_fixture_file .absent = .ok none ∧
    (∀ r, run_validation sdk .absent ff = .ok r →
        r.judgment_creation = ⟨0, 0, []⟩) ∧
    (load_fixture_file (.invalidJson m) = .error ("JSONDecodeError: " ++ m) ∧
      run_validation sdk (.invalidJson m) ff =
        .error ("JSONDecodeError: " ++ m)) ∧
    (load_fixture_file .missingKey = .error "KeyError: test_vectors" ∧
      run_validation sdk .missingKey ff = .error "KeyError: test_vectors") ∧
    ((validate_judgment_creation sdk vs).details.map Detail.test =
        vs.map JudgmentVector.name ∧
      (validate_judgment_creation sdk vs).total = vs.length) := by
  refine ⟨rfl, ?_, ⟨rfl, rfl⟩, ⟨rfl, rfl⟩,
    validate_judgment_creation_names sdk vs, rfl⟩
  intro r h
  rw [run_validation] at h
  cases hl : load_test_vectors .absent ff with
  | error e => rw [hl] at h; cases h
  | ok loaded =>
    rw [hl] at h
    have hl2 : (match load_fixture_file ff with
        | .error e => (Except.error e : Except String LoadedVectors)
        | .ok f => .ok ⟨none, f⟩) = .ok loaded := hl
    cases hf : load_fixture_file ff with
    | error e => rw [hf] at hl2; cases hl2
    | ok f =>
      rw [hf] at hl2
      cases hl2
      cases hfo : validate_fusion_operators sdk with
      | error e => rw [hfo] at h; cases h
      | ok fo =>
        rw [hfo] at h
        cases h
        rfl

/-- Witness for C8: the `okSDK` run with absent fixtures has an empty
judgment-creation category; a malformed file aborts the run with the load
error; a duplicated vector list is reported in order, duplicates intact. -/
theorem C8_witness :
    okRun.judgment_creation = ⟨0, 0, []⟩ ∧
    run_validation okSDK (.invalidJson "bad") .absent =
      .error "JSONDecodeError: bad" ∧
    (validate_judgment_creation okSDK
        [vecValid, vecValid, vecInvalid]).details.map Detail.test =
      ["basic_valid", "basic_valid", "sum_exceeds_one"] := by
  have h := C8_fixture_loading okSDK .absent "bad" [vecValid, vecValid, vecInvalid]
  refine ⟨h.2.1 okRun run_okSDK, h.2.2.1.2, ?_⟩
  rw [h.2.2.2.2.1]
  rfl

/-- Claim C9: the zero-weights probe constructs inputs (0.9, 0.1, 0.9) and
(0.8, 0.2, 0.8), each summing above 1 and hence invalid per
`is_valid_judgment`; a candidate that rejects either construction (as the
protocol invariant demands) gets a FAIL on this probe. -/
theorem C9_zero_weights (sdk : SDK)
    (h : (∃ e, sdk.construct_judgment 0.9 0.1 0.9 fusionChain1 = .error e) ∨
         (∃ j1 e, sdk.construct_judgment 0.9 0.1 0.9 fusionChain1 = .ok j1 ∧
            sdk.construct_judgment 0.8 0.2 0.8 fusionChain2 = .error e)) :
    ((0.9 : ℚ) + 0.1 + 0.9 > 1) ∧
    ((0.8 : ℚ) + 0.2 + 0.8 > 1) ∧
    (∀ (n : Nat) (a : AppendOutcome),
        _is_valid_judgment (mkObj 0.9 0.1 0.9 n a) = false) ∧
    (∀ (n : Nat) (a : AppendOutcome),
        _is_valid_judgment (mkObj 0.8 0.2 0.8 n a) = false) ∧
    (zero_weights_probe sdk).2.status = Verdict.FAIL ∧
    (zero_weights_probe sdk).1 = 0 := by
  refine ⟨by norm_num, by norm_num, ?_, ?_, ?_, ?_⟩
  · intro n a; rw [is_valid_judgment_mkObj_eq]; norm_num
  · intro n a; rw [is_valid_judgment_mkObj_eq]; norm_num
  · rcases h with ⟨e, he⟩ | ⟨j1, e, hj, he⟩
    · simp [zero_weights_probe, he]
    · simp [zero_weights_probe, hj, he]
  · rcases h with ⟨e, he⟩ | ⟨j1, e, hj, he⟩
    · simp [zero_weights_probe, he]
    · simp [zero_weights_probe, hj, he]

/-- Witness for C9: a candidate that raises on the first out-of-range
construction records FAIL on the zero-weights probe. -/
theorem C9_witness :
    (zero_weights_probe raiseSDK).2.status = Verdict.FAIL ∧
    (zero_weights_probe raiseSDK).1 = 0 :=
  ⟨(C9_zero_weights raiseSDK (Or.inl ⟨"invalid sum", rfl⟩)).2.2.2.2.1,
   (C9_zero_weights raiseSDK (Or.inl ⟨"invalid sum", rfl⟩)).2.2.2.2.2⟩

end OTP
